import Mathlib

/-!
Verification of the deterministic confidence-scoring core of the
due-diligence report generator (`ConfidenceScorer` in the main script,
plus the module-level `get_stars` in `ddr_engine.py`).

Numeric values are modelled as exact rationals (ℚ): every constant in the
scorer is a short decimal and the arithmetic is a small additive point
system, so the rational semantics is the intended real-number reading of
the Python code.  Strings are modelled as Lean `String`s; the Python
substring test `key in source_lower` is embedded as an explicit
character-list scan.
-/

/-- Does `needle` occur at the start of `haystack` (on character lists)? -/
def charsStartWith : List Char → List Char → Bool
  | [], _ => true
  | _ :: _, [] => false
  | a :: as, b :: bs => a == b && charsStartWith as bs

/-- Does `needle` occur anywhere inside `haystack`?  Embeds the Python
substring operator `needle in haystack`. -/
def charsContain (needle : List Char) : List Char → Bool
  | [] => charsStartWith needle []
  | h :: t => charsStartWith needle (h :: t) || charsContain needle t

/-- Lowercase one character, embedding the Python `str.lower` method on the ASCII
range (every key of the credibility table is lowercase ASCII, so the
substring tests below only depend on this range). -/
def lower_char (c : Char) : Char :=
  if 65 ≤ c.toNat ∧ c.toNat ≤ 90 then Char.ofNat (c.toNat + 32) else c

/-- Lowercase a string into its character list (`source.lower()`). -/
def lower_chars (s : String) : List Char :=
  s.data.map lower_char

/-- The `SOURCE_CREDIBILITY` table, in dict insertion order (Python
dict iteration order is insertion order). -/
def SOURCE_CREDIBILITY : List (String × ℚ) :=
  [("bloomberg", 95/100), ("reuters", 90/100), ("iea", 95/100), ("bain", 85/100),
   ("mckinsey", 85/100), ("bcg", 85/100), ("sec", 95/100), ("crunchbase", 85/100),
   ("pitchbook", 90/100), ("cbinsights", 85/100), ("court_records", 95/100),
   ("government", 85/100), ("industry_report", 75/100), ("unknown", 20/100)]

/-- `ConfidenceScorer._get_credibility`: lowercase the source string and
return the weight of the first table key contained in it, falling back to
the table entry under the key unknown. -/
def get_credibility (source : String) : ℚ :=
  let source_lower := lower_chars source
  match SOURCE_CREDIBILITY.find? (fun kv => charsContain kv.1.data source_lower) with
  | some kv => kv.2
  | none => ((SOURCE_CREDIBILITY.lookup "unknown").getD 0)

/-- `ConfidenceScorer.score_claim`, translated line by line: 0.30 baseline,
tiered volume bonus (cascading `elif`s), mean-credibility bonus when the
source list is truthy (non-empty), recency bonus, flag bonuses, then
`min(1.0, confidence)`. -/
def score_claim (sources : List String) (data_age_months : ℤ)
    (sources_agree : Bool) (has_numbers : Bool) : ℚ :=
  let confidence : ℚ := 3/10
  let confidence :=
    if sources.length ≥ 5 then confidence + 25/100
    else if sources.length ≥ 3 then confidence + 15/100
    else if sources.length = 2 then confidence + 8/100
    else if sources.length = 1 then confidence + 3/100
    else confidence
  let confidence :=
    if sources.isEmpty then confidence
    else confidence +
      ((sources.map get_credibility).sum / (sources.length : ℚ)) * (30/100)
  let confidence :=
    if data_age_months ≤ 6 then confidence + 15/100
    else if data_age_months ≤ 12 then confidence + 8/100
    else confidence
  let confidence := if sources_agree then confidence + 15/100 else confidence
  let confidence := if has_numbers then confidence + 10/100 else confidence
  min 1 confidence

/-- The Python signature defaults (`data_age_months=999`,
`sources_agree=False`, `has_numbers=False`), as used by call sites that
pass only `sources`. -/
def score_claim_default (sources : List String) : ℚ :=
  score_claim sources 999 false false

/-- `ConfidenceScorer.get_stars`: threshold bucketing of a confidence
value into a star string. -/
def get_stars (confidence : ℚ) : String :=
  if confidence ≥ 85/100 then "⭐⭐⭐⭐⭐"
  else if confidence ≥ 70/100 then "⭐⭐⭐⭐"
  else if confidence ≥ 50/100 then "⭐⭐⭐"
  else if confidence ≥ 30/100 then "⭐⭐"
  else "⭐"

/-- Module-level `get_stars` from `ddr_engine.py` (the star characters are
written there as `⭐` escapes; same code point). -/
def ddr_engine_get_stars (confidence : ℚ) : String :=
  if confidence ≥ 85/100 then "⭐⭐⭐⭐⭐"
  else if confidence ≥ 70/100 then "⭐⭐⭐⭐"
  else if confidence ≥ 50/100 then "⭐⭐⭐"
  else if confidence ≥ 30/100 then "⭐⭐"
  else "⭐"

/-!  Spec-side decomposition of the score into its five documented bonus
terms, each written with mutually exclusive tiers as the spec phrases
them.  The bridge lemma `score_claim_eq_spec` below proves the cascading
accumulation of the code equal to this decomposition. -/

/-- Spec-side volume bonus: 0 sources → +0; 1 → +0.03; 2 → +0.08;
3–4 → +0.15; ≥5 → +0.25 (exactly one tier applies). -/
def spec_volume_bonus (n : ℕ) : ℚ :=
  if n = 0 then 0
  else if n = 1 then 3/100
  else if n = 2 then 8/100
  else if n ≤ 4 then 15/100
  else 25/100

/-- Spec-side credibility bonus: mean credibility × 0.30 when at least one
source is present, 0 otherwise. -/
def spec_cred_bonus (sources : List String) : ℚ :=
  if sources.isEmpty then 0
  else ((sources.map get_credibility).sum / (sources.length : ℚ)) * (30/100)

/-- Spec-side recency bonus: +0.15 if ≤6 months, else +0.08 if ≤12, else 0. -/
def spec_recency_bonus (data_age_months : ℤ) : ℚ :=
  if data_age_months ≤ 6 then 15/100
  else if data_age_months ≤ 12 then 8/100
  else 0

/-- Spec-side corroboration bonus. -/
def spec_agree_bonus (sources_agree : Bool) : ℚ :=
  if sources_agree then 15/100 else 0

/-- Spec-side numeric-backing bonus. -/
def spec_numbers_bonus (has_numbers : Bool) : ℚ :=
  if has_numbers then 10/100 else 0

/-- The unclamped sum of baseline and the five documented bonuses (the
value of the Python local `confidence` just before `min(1.0, ...)`). -/
def raw_confidence (sources : List String) (data_age_months : ℤ)
    (sources_agree : Bool) (has_numbers : Bool) : ℚ :=
  3/10 + spec_volume_bonus sources.length + spec_cred_bonus sources
    + spec_recency_bonus data_age_months + spec_agree_bonus sources_agree
    + spec_numbers_bonus has_numbers

theorem volume_layer_eq (n : ℕ) :
    (if n ≥ 5 then (3:ℚ)/10 + 25/100
     else if n ≥ 3 then 3/10 + 15/100
     else if n = 2 then 3/10 + 8/100
     else if n = 1 then 3/10 + 3/100
     else 3/10) = 3/10 + spec_volume_bonus n := by
  unfold spec_volume_bonus
  split_ifs <;> first | (exfalso; omega) | ring1

theorem cred_layer_eq (c : ℚ) (s : List String) :
    (if s.isEmpty then c
     else c + ((s.map get_credibility).sum / (s.length : ℚ)) * (30/100)) =
      c + spec_cred_bonus s := by
  unfold spec_cred_bonus
  split_ifs <;> ring

theorem recency_layer_eq (c : ℚ) (a : ℤ) :
    (if a ≤ 6 then c + 15/100 else if a ≤ 12 then c + 8/100 else c) =
      c + spec_recency_bonus a := by
  unfold spec_recency_bonus
  split_ifs <;> ring

theorem agree_layer_eq (c : ℚ) (g : Bool) :
    (if g then c + 15/100 else c) = c + spec_agree_bonus g := by
  unfold spec_agree_bonus
  split_ifs <;> ring

theorem numbers_layer_eq (c : ℚ) (n : Bool) :
    (if n then c + 10/100 else c) = c + spec_numbers_bonus n := by
  unfold spec_numbers_bonus
  split_ifs <;> ring

theorem score_claim_eq_spec (s : List String) (a : ℤ) (g n : Bool) :
    score_claim s a g n = min 1 (raw_confidence s a g n) := by
  simp only [score_claim]
  rw [volume_layer_eq, cred_layer_eq, recency_layer_eq, agree_layer_eq,
    numbers_layer_eq]
  rfl

theorem get_credibility_bounds (src : String) :
    1/5 ≤ get_credibility src ∧ get_credibility src ≤ 19/20 := by
  simp only [get_credibility]
  cases h : SOURCE_CREDIBILITY.find?
      (fun kv => charsContain kv.1.data (lower_chars src)) with
  | none =>
    rw [show SOURCE_CREDIBILITY.lookup "unknown" = some (20/100) from rfl]
    norm_num
  | some kv =>
    have hmem : kv ∈ SOURCE_CREDIBILITY := List.mem_of_find?_eq_some h
    simp only [SOURCE_CREDIBILITY, List.mem_cons, List.not_mem_nil, or_false]
      at hmem
    rcases hmem with rfl | rfl | rfl | rfl | rfl | rfl | rfl | rfl | rfl
      | rfl | rfl | rfl | rfl | rfl <;> norm_num

theorem spec_volume_bonus_nonneg (n : ℕ) : 0 ≤ spec_volume_bonus n := by
  unfold spec_volume_bonus
  split_ifs <;> norm_num

theorem spec_volume_bonus_le (n : ℕ) : spec_volume_bonus n ≤ 25/100 := by
  unfold spec_volume_bonus
  split_ifs <;> norm_num

theorem spec_cred_bonus_nonneg (s : List String) : 0 ≤ spec_cred_bonus s := by
  unfold spec_cred_bonus
  split_ifs with h
  · exact le_refl 0
  · have hsum : 0 ≤ (s.map get_credibility).sum := by
      apply List.sum_nonneg
      intro x hx
      obtain ⟨y, _, rfl⟩ := List.mem_map.mp hx
      linarith [(get_credibility_bounds y).1]
    have hlen : (0:ℚ) ≤ (s.length : ℚ) := by positivity
    positivity

theorem spec_recency_bonus_nonneg (a : ℤ) : 0 ≤ spec_recency_bonus a := by
  unfold spec_recency_bonus
  split_ifs <;> norm_num

theorem spec_agree_bonus_nonneg (g : Bool) : 0 ≤ spec_agree_bonus g := by
  unfold spec_agree_bonus
  split_ifs <;> norm_num

theorem spec_numbers_bonus_nonneg (n : Bool) : 0 ≤ spec_numbers_bonus n := by
  unfold spec_numbers_bonus
  split_ifs <;> norm_num

theorem raw_confidence_ge_base (s : List String) (a : ℤ) (g n : Bool) :
    3/10 ≤ raw_confidence s a g n := by
  unfold raw_confidence
  linarith [spec_volume_bonus_nonneg s.length, spec_cred_bonus_nonneg s,
    spec_recency_bonus_nonneg a, spec_agree_bonus_nonneg g,
    spec_numbers_bonus_nonneg n]

/-- Claim C1: for every evidence input (any source list, any integer age,
any flags) `score_claim` returns a value in `[0, 1]`; moreover the result
is never below the 0.30 baseline, so no explicit floor clamp is needed. -/
theorem score_claim_bounded (s : List String) (a : ℤ) (g n : Bool) :
    0 ≤ score_claim s a g n ∧ score_claim s a g n ≤ 1 ∧
      3/10 ≤ score_claim s a g n := by
  rw [score_claim_eq_spec]
  have h := raw_confidence_ge_base s a g n
  exact ⟨le_min (by norm_num) (by linarith), min_le_left _ _,
    le_min (by norm_num) h⟩

/-- Claim C2: the volume bonus is a function of the source count alone
(duplicates counted), with exactly one tier applied: 0 sources add 0,
1 adds 0.03, 2 adds 0.08, 3 or 4 add 0.15, and 5 or more add 0.25. -/
theorem score_claim_volume_tiers :
    (∀ (s : List String) (a : ℤ) (g n : Bool),
        score_claim s a g n = min 1 (3/10 + spec_volume_bonus s.length
          + spec_cred_bonus s + spec_recency_bonus a + spec_agree_bonus g
          + spec_numbers_bonus n)) ∧
    spec_volume_bonus 0 = 0 ∧ spec_volume_bonus 1 = 3/100 ∧
    spec_volume_bonus 2 = 8/100 ∧ spec_volume_bonus 3 = 15/100 ∧
    spec_volume_bonus 4 = 15/100 ∧
    ∀ k : ℕ, spec_volume_bonus (5 + k) = 25/100 := by
  refine ⟨fun s a g n => score_claim_eq_spec s a g n,
    by norm_num [spec_volume_bonus], by norm_num [spec_volume_bonus],
    by norm_num [spec_volume_bonus], by norm_num [spec_volume_bonus],
    by norm_num [spec_volume_bonus], fun k => ?_⟩
  unfold spec_volume_bonus
  rw [if_neg (by omega), if_neg (by omega), if_neg (by omega),
    if_neg (by omega)]

/-- Claim C3: with at least one source the credibility bonus is the mean of
the per-source weights times 0.30, and it is 0 for an empty list; the
per-source weight lowercases the string and returns the weight of any
contained table key (substring match; known organizations sit in the
0.75–0.95 range), with a 0.20 default when no key is contained, so
"See Bloomberg Terminal data" is weighted as "bloomberg" (0.95) while
"some local blog" receives 0.20. -/
theorem score_claim_credibility_spec :
    spec_cred_bonus [] = 0 ∧
    (∀ (x : String) (xs : List String),
        spec_cred_bonus (x :: xs) =
          (((x :: xs).map get_credibility).sum / ((x :: xs).length : ℚ))
            * (30/100)) ∧
    (∀ (s : List String) (a : ℤ) (g n : Bool),
        score_claim s a g n = min 1 (3/10 + spec_volume_bonus s.length
          + spec_cred_bonus s + spec_recency_bonus a + spec_agree_bonus g
          + spec_numbers_bonus n)) ∧
    get_credibility "See Bloomberg Terminal data" = 95/100 ∧
    get_credibility "some local blog" = 20/100 ∧
    (∀ kv : String × ℚ, kv ∈ SOURCE_CREDIBILITY →
        kv.1 = "unknown" ∨ (75/100 ≤ kv.2 ∧ kv.2 ≤ 95/100)) ∧
    (∀ src : String,
        SOURCE_CREDIBILITY.find?
            (fun kv => charsContain kv.1.data (lower_chars src)) = none →
          get_credibility src = 20/100) := by
  refine ⟨by simp [spec_cred_bonus], fun x xs => by simp [spec_cred_bonus],
    fun s a g n => score_claim_eq_spec s a g n, rfl, rfl,
    fun kv hmem => ?_, fun src h => ?_⟩
  · simp only [SOURCE_CREDIBILITY, List.mem_cons, List.not_mem_nil, or_false]
      at hmem
    rcases hmem with rfl | rfl | rfl | rfl | rfl | rfl | rfl | rfl | rfl
      | rfl | rfl | rfl | rfl | rfl <;> norm_num
  · simp only [get_credibility]
    rw [h]
    rfl

/-- Witness for the two hypothesis-bearing conjuncts of claim C3, at the
"bloomberg" table entry and at a source string that matches no key. -/
theorem score_claim_credibility_spec_witness :
    (("bloomberg", (95:ℚ)/100).1 = "unknown" ∨
      (75/100 ≤ ("bloomberg", (95:ℚ)/100).2 ∧
        ("bloomberg", (95:ℚ)/100).2 ≤ 95/100)) ∧
    get_credibility "zzz" = 20/100 :=
  ⟨score_claim_credibility_spec.2.2.2.2.2.1 ("bloomberg", 95/100)
      (by simp [SOURCE_CREDIBILITY]),
   score_claim_credibility_spec.2.2.2.2.2.2 "zzz" rfl⟩

/-- Claim C4: the recency bonus is +0.15 when the age is at most 6 months,
+0.08 when between 7 and 12, and 0 beyond 12; the unsupplied-age default is
the stale sentinel 999, which earns no bonus, and the score at age 3 is at
least the score at age 9, which is at least the score at age 24. -/
theorem score_claim_recency_spec :
    spec_recency_bonus 3 = 15/100 ∧ spec_recency_bonus 6 = 15/100 ∧
    spec_recency_bonus 7 = 8/100 ∧ spec_recency_bonus 12 = 8/100 ∧
    spec_recency_bonus 13 = 0 ∧ spec_recency_bonus 999 = 0 ∧
    (∀ s : List String, score_claim_default s = score_claim s 999 false false) ∧
    (∀ (s : List String) (a : ℤ) (g n : Bool),
        score_claim s a g n = min 1 (3/10 + spec_volume_bonus s.length
          + spec_cred_bonus s + spec_recency_bonus a + spec_agree_bonus g
          + spec_numbers_bonus n)) ∧
    (∀ (s : List String) (g n : Bool),
        score_claim s 9 g n ≤ score_claim s 3 g n ∧
        score_claim s 24 g n ≤ score_claim s 9 g n) := by
  have h3 : spec_recency_bonus 3 = 15/100 := by norm_num [spec_recency_bonus]
  have h9 : spec_recency_bonus 9 = 8/100 := by norm_num [spec_recency_bonus]
  have h24 : spec_recency_bonus 24 = 0 := by norm_num [spec_recency_bonus]
  refine ⟨h3, by norm_num [spec_recency_bonus], by norm_num [spec_recency_bonus],
    by norm_num [spec_recency_bonus], by norm_num [spec_recency_bonus],
    by norm_num [spec_recency_bonus], fun s => rfl,
    fun s a g n => score_claim_eq_spec s a g n, fun s g n => ⟨?_, ?_⟩⟩
  · rw [score_claim_eq_spec, score_claim_eq_spec]
    apply min_le_min le_rfl
    unfold raw_confidence
    rw [h9, h3]
    linarith
  · rw [score_claim_eq_spec, score_claim_eq_spec]
    apply min_le_min le_rfl
    unfold raw_confidence
    rw [h24, h9]
    linarith

/-- Claim C5: `get_stars` partitions the confidence line into exactly five
bands with inclusive lower boundaries (≥0.85 → 5 stars, [0.70,0.85) → 4,
[0.50,0.70) → 3, [0.30,0.50) → 2, <0.30 → 1), each value gets exactly one
label, the star count is monotone in confidence, and the documented
boundary samples evaluate as stated. -/
theorem get_stars_bands :
    (∀ c : ℚ,
      (get_stars c = "⭐⭐⭐⭐⭐" ↔ 85/100 ≤ c) ∧
      (get_stars c = "⭐⭐⭐⭐" ↔ 70/100 ≤ c ∧ c < 85/100) ∧
      (get_stars c = "⭐⭐⭐" ↔ 50/100 ≤ c ∧ c < 70/100) ∧
      (get_stars c = "⭐⭐" ↔ 30/100 ≤ c ∧ c < 50/100) ∧
      (get_stars c = "⭐" ↔ c < 30/100)) ∧
    (∀ c d : ℚ, c ≤ d → (get_stars c).length ≤ (get_stars d).length) ∧
    get_stars (2999/10000) = "⭐" ∧ get_stars (30/100) = "⭐⭐" ∧
    get_stars (4999/10000) = "⭐⭐" ∧ get_stars (50/100) = "⭐⭐⭐" := by
  refine ⟨fun c => ?_, fun c d hcd => ?_, by norm_num [get_stars],
    by norm_num [get_stars], by norm_num [get_stars], by norm_num [get_stars]⟩
  · unfold get_stars
    split_ifs with h1 h2 h3 h4 <;>
      refine ⟨?_, ?_, ?_, ?_, ?_⟩ <;> constructor <;> intro h <;>
      first
        | rfl
        | (exact absurd h (by decide))
        | (constructor <;> linarith)
        | linarith
  · unfold get_stars
    split_ifs <;> first | decide | (exfalso; linarith)

/-- Witness for the monotonicity hypothesis of claim C5 at 0.40 ≤ 0.90. -/
theorem get_stars_bands_witness :
    (get_stars (40/100)).length ≤ (get_stars (90/100)).length :=
  get_stars_bands.2.1 (40/100) (90/100) (by norm_num)

theorem raw_agree_toggle (s : List String) (a : ℤ) (n : Bool) :
    raw_confidence s a true n = raw_confidence s a false n + 15/100 := by
  unfold raw_confidence spec_agree_bonus
  norm_num
  ring

theorem raw_numbers_toggle (s : List String) (a : ℤ) (g : Bool) :
    raw_confidence s a g true = raw_confidence s a g false + 10/100 := by
  unfold raw_confidence spec_numbers_bonus
  norm_num

theorem cred_replicate (k : ℕ) (src : String) :
    spec_cred_bonus (List.replicate (k+1) src) =
      get_credibility src * (30/100) := by
  have hne : ((k:ℚ) + 1) ≠ 0 := by positivity
  unfold spec_cred_bonus
  rw [if_neg (by simp [List.replicate_succ])]
  rw [List.map_replicate, List.sum_replicate, List.length_replicate,
    nsmul_eq_mul]
  push_cast
  field_simp

/-- Counterexample to claim C7 as stated: with sources of equal, fixed
credibility ("bloomberg", weight 0.95), recent data and both flags set,
the 1.0 ceiling is already reached at one source, so the score does not
strictly increase at the 1 → 2 tier boundary. -/
theorem source_count_strictness_counterexample :
    score_claim (List.replicate 1 "bloomberg") 3 true true = 1 ∧
    score_claim (List.replicate 2 "bloomberg") 3 true true = 1 ∧
    ¬ score_claim (List.replicate 1 "bloomberg") 3 true true <
        score_claim (List.replicate 2 "bloomberg") 3 true true := by
  have h1 : score_claim (List.replicate 1 "bloomberg") 3 true true = 1 := by
    rw [score_claim_eq_spec]
    have h : raw_confidence (List.replicate 1 "bloomberg") 3 true true
        = 203/200 := by
      norm_num [raw_confidence, spec_volume_bonus, spec_cred_bonus,
        spec_recency_bonus, spec_agree_bonus, spec_numbers_bonus,
        show get_credibility "bloomberg" = 95/100 from rfl]
    rw [h]; norm_num
  have h2 : score_claim (List.replicate 2 "bloomberg") 3 true true = 1 := by
    rw [score_claim_eq_spec]
    have h : raw_confidence (List.replicate 2 "bloomberg") 3 true true
        = 213/200 := by
      norm_num [raw_confidence, spec_volume_bonus, spec_cred_bonus,
        spec_recency_bonus, spec_agree_bonus, spec_numbers_bonus,
        show get_credibility "bloomberg" = 95/100 from rfl]
    rw [h]; norm_num
  exact ⟨h1, h2, by rw [h1, h2]; exact lt_irrefl 1⟩

/-- Claim C7 (amended): with sources of equal, fixed credibility the score
is non-decreasing through 0, 1, 2, 3, 5 sources unconditionally, and the
increases at the tier boundaries 0→1, 1→2, 2→3 and 4→5 are strict
provided the unclamped five-source total does not exceed the 1.0 ceiling
(when it does, clamping can make consecutive scores equal). -/
theorem source_count_monotonic (src : String) (a : ℤ) (g n : Bool) :
    (score_claim (List.replicate 0 src) a g n ≤
        score_claim (List.replicate 1 src) a g n ∧
      score_claim (List.replicate 1 src) a g n ≤
        score_claim (List.replicate 2 src) a g n ∧
      score_claim (List.replicate 2 src) a g n ≤
        score_claim (List.replicate 3 src) a g n ∧
      score_claim (List.replicate 3 src) a g n ≤
        score_claim (List.replicate 5 src) a g n) ∧
    (raw_confidence (List.replicate 5 src) a g n ≤ 1 →
      score_claim (List.replicate 0 src) a g n <
        score_claim (List.replicate 1 src) a g n ∧
      score_claim (List.replicate 1 src) a g n <
        score_claim (List.replicate 2 src) a g n ∧
      score_claim (List.replicate 2 src) a g n <
        score_claim (List.replicate 3 src) a g n ∧
      score_claim (List.replicate 4 src) a g n <
        score_claim (List.replicate 5 src) a g n) := by
  obtain ⟨hw1, hw2⟩ := get_credibility_bounds src
  set w := get_credibility src with hwdef
  have hw30 : 6/100 ≤ w * (30/100) := by
    have := mul_le_mul_of_nonneg_right hw1 (show (0:ℚ) ≤ 30/100 by norm_num)
    linarith
  set R := spec_recency_bonus a + spec_agree_bonus g + spec_numbers_bonus n
    with hRdef
  have hR0 : 0 ≤ R := by
    rw [hRdef]
    linarith [spec_recency_bonus_nonneg a, spec_agree_bonus_nonneg g,
      spec_numbers_bonus_nonneg n]
  have raw_eq : ∀ k : ℕ, raw_confidence (List.replicate k src) a g n =
      3/10 + spec_volume_bonus k + (if k = 0 then 0 else w * (30/100)) + R := by
    intro k
    cases k with
    | zero =>
      unfold raw_confidence
      rw [List.length_replicate]
      rw [show spec_cred_bonus (List.replicate 0 src) = 0 from by
        simp [spec_cred_bonus]]
      rw [if_pos rfl, hRdef]
      ring
    | succ m =>
      unfold raw_confidence
      rw [List.length_replicate, cred_replicate m src,
        if_neg (Nat.succ_ne_zero m), hRdef, hwdef]
      ring
  have r0 : raw_confidence (List.replicate 0 src) a g n = 3/10 + R := by
    rw [raw_eq]; norm_num [spec_volume_bonus]
  have r1 : raw_confidence (List.replicate 1 src) a g n =
      3/10 + 3/100 + w * (30/100) + R := by
    rw [raw_eq]; norm_num [spec_volume_bonus]
  have r2 : raw_confidence (List.replicate 2 src) a g n =
      3/10 + 8/100 + w * (30/100) + R := by
    rw [raw_eq]; norm_num [spec_volume_bonus]
  have r3 : raw_confidence (List.replicate 3 src) a g n =
      3/10 + 15/100 + w * (30/100) + R := by
    rw [raw_eq]; norm_num [spec_volume_bonus]
  have r4 : raw_confidence (List.replicate 4 src) a g n =
      3/10 + 15/100 + w * (30/100) + R := by
    rw [raw_eq]; norm_num [spec_volume_bonus]
  have r5 : raw_confidence (List.replicate 5 src) a g n =
      3/10 + 25/100 + w * (30/100) + R := by
    rw [raw_eq]; norm_num [spec_volume_bonus]
  constructor
  · refine ⟨?_, ?_, ?_, ?_⟩ <;>
      (rw [score_claim_eq_spec, score_claim_eq_spec];
       apply min_le_min le_rfl) <;>
      first
        | (rw [r0, r1]; linarith)
        | (rw [r1, r2]; linarith)
        | (rw [r2, r3]; linarith)
        | (rw [r3, r5]; linarith)
  · intro hceil
    rw [r5] at hceil
    have s0 : score_claim (List.replicate 0 src) a g n = 3/10 + R := by
      rw [score_claim_eq_spec, r0, min_eq_right (by linarith)]
    have s1 : score_claim (List.replicate 1 src) a g n =
        3/10 + 3/100 + w * (30/100) + R := by
      rw [score_claim_eq_spec, r1, min_eq_right (by linarith)]
    have s2 : score_claim (List.replicate 2 src) a g n =
        3/10 + 8/100 + w * (30/100) + R := by
      rw [score_claim_eq_spec, r2, min_eq_right (by linarith)]
    have s3 : score_claim (List.replicate 3 src) a g n =
        3/10 + 15/100 + w * (30/100) + R := by
      rw [score_claim_eq_spec, r3, min_eq_right (by linarith)]
    have s4 : score_claim (List.replicate 4 src) a g n =
        3/10 + 15/100 + w * (30/100) + R := by
      rw [score_claim_eq_spec, r4, min_eq_right (by linarith)]
    have s5 : score_claim (List.replicate 5 src) a g n =
        3/10 + 25/100 + w * (30/100) + R := by
      rw [score_claim_eq_spec, r5, min_eq_right (by linarith)]
    refine ⟨?_, ?_, ?_, ?_⟩
    · rw [s0, s1]; linarith
    · rw [s1, s2]; linarith
    · rw [s2, s3]; linarith
    · rw [s4, s5]; linarith

/-- Witness for the amended strictness hypothesis of claim C7: an unrecognized
source (weight 0.20) with stale data and no flags keeps even the
five-source total at 0.61, below the ceiling. -/
theorem source_count_monotonic_witness :
    raw_confidence (List.replicate 5 "x") 999 false false ≤ 1 ∧
    score_claim (List.replicate 0 "x") 999 false false <
      score_claim (List.replicate 1 "x") 999 false false := by
  have hraw : raw_confidence (List.replicate 5 "x") 999 false false
      = 61/100 := by
    norm_num [raw_confidence, spec_volume_bonus, spec_cred_bonus,
      spec_recency_bonus, spec_agree_bonus, spec_numbers_bonus,
      show get_credibility "x" = 20/100 from rfl]
  have h : raw_confidence (List.replicate 5 "x") 999 false false ≤ 1 := by
    rw [hraw]; norm_num
  exact ⟨h, ((source_count_monotonic "x" 999 false false).2 h).1⟩

/-- Claim C6: toggling `sources_agree` adds exactly 0.15 and toggling
`has_numbers` adds exactly 0.10 (each subject to the 1.0 ceiling); the
toggles are independent and both bonuses stack up to the ceiling.  Away
from the ceiling the increases are exact differences of scores. -/
theorem score_claim_flag_additivity :
    (∀ (s : List String) (a : ℤ) (n : Bool),
        score_claim s a true n = min 1 (raw_confidence s a false n + 15/100)) ∧
    (∀ (s : List String) (a : ℤ) (g : Bool),
        score_claim s a g true = min 1 (raw_confidence s a g false + 10/100)) ∧
    (∀ (s : List String) (a : ℤ),
        score_claim s a true true =
          min 1 (raw_confidence s a false false + 15/100 + 10/100)) ∧
    (∀ (s : List String) (a : ℤ) (n : Bool),
        raw_confidence s a false n + 15/100 ≤ 1 →
          score_claim s a true n = score_claim s a false n + 15/100) ∧
    (∀ (s : List String) (a : ℤ) (g : Bool),
        raw_confidence s a g false + 10/100 ≤ 1 →
          score_claim s a g true = score_claim s a g false + 10/100) := by
  refine ⟨fun s a n => ?_, fun s a g => ?_, fun s a => ?_,
    fun s a n h => ?_, fun s a g h => ?_⟩
  · rw [score_claim_eq_spec, raw_agree_toggle]
  · rw [score_claim_eq_spec, raw_numbers_toggle]
  · rw [score_claim_eq_spec, raw_numbers_toggle, raw_agree_toggle]
  · rw [score_claim_eq_spec, score_claim_eq_spec, raw_agree_toggle,
      min_eq_right h, min_eq_right (by linarith)]
  · rw [score_claim_eq_spec, score_claim_eq_spec, raw_numbers_toggle,
      min_eq_right h, min_eq_right (by linarith)]

/-- Witness for the two exact-difference conjuncts of claim C6 at the empty
evidence record, where no clamping occurs. -/
theorem score_claim_flag_additivity_witness :
    (raw_confidence [] 999 false false + 15/100 ≤ 1 ∧
      score_claim [] 999 true false = score_claim [] 999 false false + 15/100) ∧
    (raw_confidence [] 999 false false + 10/100 ≤ 1 ∧
      score_claim [] 999 false true = score_claim [] 999 false false + 10/100) := by
  have hraw : raw_confidence [] 999 false false = 3/10 := by
    norm_num [raw_confidence, spec_volume_bonus, spec_cred_bonus,
      spec_recency_bonus, spec_agree_bonus, spec_numbers_bonus]
  constructor
  · exact ⟨by rw [hraw]; norm_num,
      score_claim_flag_additivity.2.2.2.1 [] 999 false (by rw [hraw]; norm_num)⟩
  · exact ⟨by rw [hraw]; norm_num,
      score_claim_flag_additivity.2.2.2.2 [] 999 false (by rw [hraw]; norm_num)⟩

/-- Guarded rational division, modelling the Python division operator whose evaluation
raises `ZeroDivisionError` (here: `none`) on a zero denominator. -/
def qdiv (x y : ℚ) : Option ℚ :=
  if y = 0 then none else some (x / y)

/-- `score_claim` with the division made fallible: identical accumulation,
but the mean-credibility step goes through `qdiv`, so the result is `none`
exactly when Python would raise. -/
def score_claim_checked (sources : List String) (data_age_months : ℤ)
    (sources_agree : Bool) (has_numbers : Bool) : Option ℚ := do
  let c0 : ℚ := 3/10
  let c1 :=
    if sources.length ≥ 5 then c0 + 25/100
    else if sources.length ≥ 3 then c0 + 15/100
    else if sources.length = 2 then c0 + 8/100
    else if sources.length = 1 then c0 + 3/100
    else c0
  let c2 ←
    if sources.isEmpty then pure c1
    else do
      let avg ← qdiv ((sources.map get_credibility).sum) ((sources.length : ℚ))
      pure (c1 + avg * (30/100))
  let c3 :=
    if data_age_months ≤ 6 then c2 + 15/100
    else if data_age_months ≤ 12 then c2 + 8/100
    else c2
  let c4 := if sources_agree then c3 + 15/100 else c3
  let c5 := if has_numbers then c4 + 10/100 else c4
  pure (min 1 c5)

/-- Claim C8: the scorer is total — the division by `len(sources)` is
guarded by the non-emptiness check and unreachable on an empty list, so the
fallible version never returns `none` and agrees with `score_claim`;
omitted optional fields take the safe defaults (age 999, flags false), and
`get_stars` always returns one of the five star strings. -/
theorem score_claim_total :
    (∀ (s : List String) (a : ℤ) (g n : Bool),
        score_claim_checked s a g n = some (score_claim s a g n)) ∧
    (∀ s : List String, score_claim_default s = score_claim s 999 false false) ∧
    (∀ c : ℚ, 1 ≤ (get_stars c).length ∧ (get_stars c).length ≤ 5) := by
  refine ⟨fun s a g n => ?_, fun s => rfl, fun c => ?_⟩
  · cases s with
    | nil => rfl
    | cons x xs =>
      have hne : ((xs.length : ℚ) + 1) ≠ 0 := by positivity
      simp [score_claim_checked, score_claim, qdiv, hne]
  · unfold get_stars
    split_ifs <;> exact ⟨by decide, by decide⟩

/-- Claim C9: the worked example — one recent Reuters source with numeric
backing — scores exactly 0.85 (= 0.30 + 0.03 + 0.90×0.30 + 0.15 + 0.10)
and lands in the five-star band, confirming the ≥0.85 boundary is
inclusive. -/
theorem reuters_example_score :
    score_claim ["Reuters"] 3 false true = 85/100 ∧
    get_stars (score_claim ["Reuters"] 3 false true) = "⭐⭐⭐⭐⭐" := by
  have h : score_claim ["Reuters"] 3 false true = 85/100 := by
    rw [score_claim_eq_spec]
    have hr : raw_confidence ["Reuters"] 3 false true = 85/100 := by
      norm_num [raw_confidence, spec_volume_bonus, spec_cred_bonus,
        spec_recency_bonus, spec_agree_bonus, spec_numbers_bonus,
        show get_credibility "Reuters" = 90/100 from rfl]
    rw [hr]; norm_num
  exact ⟨h, by rw [h]; norm_num [get_stars]⟩

/-- Claim C10: the module-level `get_stars` in `ddr_engine.py` is
extensionally equal to `ConfidenceScorer.get_stars` — identical thresholds
and identical star labels at every confidence value. -/
theorem ddr_engine_get_stars_eq (c : ℚ) :
    ddr_engine_get_stars c = get_stars c := rfl
